import Mathlib

/-!
Shallow embedding of the public handle layer of librws
(src/src/rws_socketpub.c, src/src/error.h) and proofs about the
properties of its operations.

A C handle pointer `rws_socket` is embedded as `Option Socket`: `none` is a
null pointer, `some s` a valid handle whose pointed-to fields are the fields
of `s`.  Heap effects (frees of owned fields, mutex operations) are made
observable as explicit event lists, so that claims about double frees and
lock balancing become statements about the traces the embedded functions
produce.  Helper routines of this repository that are declared but whose
bodies are not under src/ (the string helpers, the clean-delete helpers,
the private send path and the worker-thread start) are modelled from the
specification, each marked `Modelled from the spec:` in its doc comment.
-/

namespace Librws

/-- Error codes of the library, from the spec error taxonomy (section 7);
`missed_parameter` is the source's name for the spec's `missing_parameter`. -/
inductive ErrorCode where
  | none_code
  | missed_parameter
  | connect_failed
  | send_failed
  | recv_failed
  | parse_handshake
  | not_101
  | missing_sec_accept
  | bad_sec_accept
  | frame_parse
  | protocol
  | peer_closed
  | memory
  | unknown
  deriving Repr, DecidableEq

/-- Embedding of `_rws_error` (src/src/error.h:29-34): code, optional HTTP
status and a human-readable description. -/
structure RwsErr where
  code : ErrorCode
  http_error : Int
  description : String
  deriving Repr, DecidableEq

/-- Embedding of the worker `command` values (spec section 3; the source file
uses `COMMAND_NONE`, `COMMAND_DISCONNECT`, `COMMAND_END`). -/
inductive Command where
  | NONE
  | CONNECT_TO_HOST
  | SEND_HANDSHAKE
  | WAIT_HANDSHAKE_RESPONSE
  | IDLE
  | DISCONNECT
  | INFORM_DISCONNECTED
  | END
  deriving Repr, DecidableEq

/-- Embedding of a queued WebSocket frame: opcode and payload bytes.  Only
identity of frames matters for the handle-layer claims. -/
structure Frame where
  opcode : Nat
  payload : List Nat
  deriving Repr, DecidableEq

/-- Embedding of `struct rws_socket_struct` (the `_rws_socket` handle), with
the fields the public layer in src/src/rws_socketpub.c touches.  Owned
pointer fields are `Option`s (`none` is a null pointer); callback slots are
`Bool`s recording whether the slot is set; `work_thread` records whether a
worker thread object exists. -/
structure Socket where
  port : Int
  scheme : Option String
  host : Option String
  path : Option String
  sec_ws_accept : Option String
  on_connected : Bool
  on_disconnected : Bool
  on_recvd_text : Bool
  on_recvd_bin : Bool
  user_object : Option Nat
  error : Option RwsErr
  received : Option (List Nat)
  received_size : Nat
  received_len : Nat
  is_connected : Bool
  command : Command
  work_thread : Bool
  send_frames : Option (List Frame)
  recvd_frames : Option (List Frame)
  deriving Repr, DecidableEq

/-- Modelled from the spec: `rws_error_new_code_descr` (declared in
src/src/error.h:38) allocates an error carrying the given code and
description; the HTTP status of a fresh error is unset (0). -/
def rws_error_new_code_descr (code : ErrorCode) (description : String) : RwsErr :=
  { code := code, http_error := 0, description := description }

/-- Modelled from the spec: `rws_socket_create_start_work_thread` (declared
outside src/) spawns the worker; on success the worker takes the handle from
`NONE` to `CONNECT_TO_HOST` (spec section 4.G) and a thread object exists.
`threadOk` is the spawn outcome. -/
def rws_socket_create_start_work_thread (s : Socket) (threadOk : Bool) :
    Bool × Socket :=
  if threadOk then
    (true, { s with command := Command.CONNECT_TO_HOST, work_thread := true })
  else
    (false, s)

/-- Embedding of `rws_socket_connect` (src/src/rws_socketpub.c:35-64).
A null handle returns false at once.  Otherwise the previous error is
deleted and cleared (`rws_error_delete_clean`), the five parameter checks
each overwrite the single local message pointer, `received_len` is zeroed,
and either a `missed_parameter` error is stored (returning false) or the
worker is started. -/
def rws_socket_connect (socket : Option Socket) (threadOk : Bool) :
    Bool × Option Socket :=
  match socket with
  | none => (false, none)
  | some s0 =>
    let s1 : Socket := { s0 with error := none }
    let msg1 : Option String :=
      if s1.port ≤ 0 then some "No URL port provided" else none
    let msg2 : Option String :=
      if s1.scheme = none then some "No URL scheme provided" else msg1
    let msg3 : Option String :=
      if s1.host = none then some "No URL host provided" else msg2
    let msg4 : Option String :=
      if s1.path = none then some "No URL path provided" else msg3
    let msg5 : Option String :=
      if s1.on_disconnected = false then
        some "No on_disconnected callback provided" else msg4
    let s2 : Socket := { s1 with received_len := 0 }
    match msg5 with
    | some m =>
      (false, some { s2 with
        error := some (rws_error_new_code_descr ErrorCode.missed_parameter m) })
    | none =>
      let r := rws_socket_create_start_work_thread s2 threadOk
      (r.1, some r.2)

/-- Observable events of `rws_socket_disconnect_and_release`: operations on
`work_mutex`, the deletion of one queued frame, the clearing of the
`send_frames` list field, a write to `command`, and the inline call to
`rws_socket_delete` that frees the handle. -/
inductive DiscEvent where
  | lockWork
  | unlockWork
  | deleteFrame (f : Frame)
  | clearSendList
  | setCommand (c : Command)
  | freeSocket
  deriving Repr, DecidableEq

/-- Embedding of `rws_socket_disconnect_and_release`
(src/src/rws_socketpub.c:66-87).  A null handle returns immediately with an
empty trace.  Otherwise: lock `work_mutex`; delete every frame of
`send_frames` (`rws_socket_delete_all_frames_in_list`) and clear the list
field (`rws_list_delete_clean`); then dispatch on the state, exactly as the
source's if/else-if chain (note the final `else if (socket->command !=
COMMAND_END)` guard: when it fails, the function returns with no unlock and
no free).  The returned handle is `none` when the handle was freed inline. -/
def rws_socket_disconnect_and_release (socket : Option Socket) :
    List DiscEvent × Option Socket :=
  match socket with
  | none => ([], none)
  | some s0 =>
    let frames := s0.send_frames.getD []
    let pre : List DiscEvent :=
      DiscEvent.lockWork ::
        (frames.map DiscEvent.deleteFrame ++ [DiscEvent.clearSendList])
    let s1 : Socket := { s0 with send_frames := none }
    if s1.is_connected then
      (pre ++ [DiscEvent.setCommand Command.DISCONNECT, DiscEvent.unlockWork],
       some { s1 with command := Command.DISCONNECT })
    else if s1.work_thread then
      (pre ++ [DiscEvent.setCommand Command.END, DiscEvent.unlockWork],
       some { s1 with command := Command.END })
    else if s1.command ≠ Command.END then
      (pre ++ [DiscEvent.unlockWork, DiscEvent.freeSocket], none)
    else
      (pre, some s1)

/-- Owned fields of the handle released during `rws_socket_delete`. -/
inductive OwnedField where
  | secWsAccept
  | received
  | sendFrames
  | recvdFrames
  | scheme
  | host
  | path
  | errorField
  deriving Repr, DecidableEq

/-- Heap events of `rws_socket_delete`: closing the transport, freeing the
allocation owned by a field, freeing one frame owned by a list field,
deleting a mutex, and freeing the handle allocation itself. -/
inductive DelEvent where
  | closeTransport
  | freeField (f : OwnedField)
  | freeFrame (f : OwnedField) (x : Frame)
  | freeMutex
  | freeHandle
  deriving Repr, DecidableEq

/-- Modelled from the spec: the clean-delete helpers (`rws_string_delete_clean`,
`rws_free_clean`, `rws_list_delete_clean`, `rws_error_delete_clean`, declared
in src/src/error.h:42 and outside src/) free the pointed-to allocation when
it is non-null and always null the field, so a repeated clean on the same
field is a no-op.  `cleanField` returns the free events and the new field
value (`none` always) for a field holding `v`. -/
def cleanField (fld : OwnedField) (v : Option α) : List DelEvent × Option α :=
  (if v.isSome then [DelEvent.freeField fld] else [], none)

/-- Modelled from the spec: `rws_socket_delete_all_frames_in_list` frees every
frame owned by the list it is given (by value — it does not null the field);
on a null list it frees nothing. -/
def delete_all_frames_in_list (fld : OwnedField) (v : Option (List Frame)) :
    List DelEvent :=
  (v.getD []).map (DelEvent.freeFrame fld)

/-- Embedding of `rws_socket_delete` (src/src/rws_socketpub.c:150-182) as the
sequence of heap events it performs, mirroring the source line by line:
close; clean `sec_ws_accept`; clean `received`; delete frames of and clean
`send_frames` then `recvd_frames`; clean `scheme`, `host`, `path`; clean
`sec_ws_accept` a second time; clean `error`; clean `received` a second
time; delete frames of and clean both lists a second time; delete the two
mutexes; free the handle.  Field values are threaded through, so each
second-round clean sees the `none` left by the first round. -/
def rws_socket_delete (s : Socket) : List DelEvent :=
  let r1 := cleanField OwnedField.secWsAccept s.sec_ws_accept
  let r2 := cleanField OwnedField.received s.received
  let e3 := delete_all_frames_in_list OwnedField.sendFrames s.send_frames
  let r4 := cleanField OwnedField.sendFrames s.send_frames
  let e5 := delete_all_frames_in_list OwnedField.recvdFrames s.recvd_frames
  let r6 := cleanField OwnedField.recvdFrames s.recvd_frames
  let r7 := cleanField OwnedField.scheme s.scheme
  let r8 := cleanField OwnedField.host s.host
  let r9 := cleanField OwnedField.path s.path
  let r10 := cleanField OwnedField.secWsAccept r1.2
  let r11 := cleanField OwnedField.errorField s.error
  let r12 := cleanField OwnedField.received r2.2
  let e13 := delete_all_frames_in_list OwnedField.sendFrames r4.2
  let r14 := cleanField OwnedField.sendFrames r4.2
  let e15 := delete_all_frames_in_list OwnedField.recvdFrames r6.2
  let r16 := cleanField OwnedField.recvdFrames r6.2
  DelEvent.closeTransport ::
    (r1.1 ++ r2.1 ++ e3 ++ r4.1 ++ e5 ++ r6.1 ++ r7.1 ++ r8.1 ++ r9.1 ++
     r10.1 ++ r11.1 ++ r12.1 ++ e13 ++ r14.1 ++ e15 ++ r16.1 ++
     [DelEvent.freeMutex, DelEvent.freeMutex, DelEvent.freeHandle])

/-- Modelled from the spec: `rws_string_copy` (declared in rws_string.h,
outside src/) returns an independently owned copy of a C string, or null for
null; in the embedding a copy has the same string value. -/
def rws_string_copy (v : Option String) : Option String := v

/-- Modelled from the spec: `rws_string_delete` frees a string when non-null
and is a no-op on null; the embedding returns the list of freed values. -/
def rws_string_delete (v : Option String) : List String :=
  match v with
  | some x => [x]
  | none => []

/-- Embedding of `rws_socket_set_url` (src/src/rws_socketpub.c:184-201).
On a null handle nothing happens.  Otherwise each of `scheme`, `host`,
`path` is first deleted and then replaced by a copy of the argument, and
`port` is assigned.  The second component lists the string values freed, in
source order. -/
def rws_socket_set_url (socket : Option Socket) (scheme host : Option String)
    (port : Int) (path : Option String) : Option Socket × List String :=
  match socket with
  | none => (none, [])
  | some s =>
    (some { s with
        scheme := rws_string_copy scheme
        host := rws_string_copy host
        path := rws_string_copy path
        port := port },
     rws_string_delete s.scheme ++ rws_string_delete s.host ++
       rws_string_delete s.path)

/-- Embedding of `rws_socket_set_scheme` (src/src/rws_socketpub.c:203-208). -/
def rws_socket_set_scheme (socket : Option Socket) (scheme : Option String) :
    Option Socket :=
  match socket with
  | none => none
  | some s => some { s with scheme := rws_string_copy scheme }

/-- Embedding of `rws_socket_get_scheme` (src/src/rws_socketpub.c:210-212). -/
def rws_socket_get_scheme (socket : Option Socket) : Option String :=
  match socket with
  | none => none
  | some s => s.scheme

/-- Embedding of `rws_socket_set_host` (src/src/rws_socketpub.c:214-219). -/
def rws_socket_set_host (socket : Option Socket) (host : Option String) :
    Option Socket :=
  match socket with
  | none => none
  | some s => some { s with host := rws_string_copy host }

/-- Embedding of `rws_socket_get_host` (src/src/rws_socketpub.c:221-223). -/
def rws_socket_get_host (socket : Option Socket) : Option String :=
  match socket with
  | none => none
  | some s => s.host

/-- Embedding of `rws_socket_set_path` (src/src/rws_socketpub.c:225-230). -/
def rws_socket_set_path (socket : Option Socket) (path : Option String) :
    Option Socket :=
  match socket with
  | none => none
  | some s => some { s with path := rws_string_copy path }

/-- Embedding of `rws_socket_get_path` (src/src/rws_socketpub.c:232-234). -/
def rws_socket_get_path (socket : Option Socket) : Option String :=
  match socket with
  | none => none
  | some s => s.path

/-- Embedding of `rws_socket_set_port` (src/src/rws_socketpub.c:236-240). -/
def rws_socket_set_port (socket : Option Socket) (port : Int) : Option Socket :=
  match socket with
  | none => none
  | some s => some { s with port := port }

/-- Embedding of `rws_socket_get_port` (src/src/rws_socketpub.c:242-244):
a null handle yields -1. -/
def rws_socket_get_port (socket : Option Socket) : Int :=
  match socket with
  | none => -1
  | some s => s.port

/-- Embedding of `rws_socket_get_error` (src/src/rws_socketpub.c:275-277). -/
def rws_socket_get_error (socket : Option Socket) : Option RwsErr :=
  match socket with
  | none => none
  | some s => s.error

/-- Embedding of `rws_socket_set_user_object` (src/src/rws_socketpub.c:279-283). -/
def rws_socket_set_user_object (socket : Option Socket) (user_object : Option Nat) :
    Option Socket :=
  match socket with
  | none => none
  | some s => some { s with user_object := user_object }

/-- Embedding of `rws_socket_get_user_object` (src/src/rws_socketpub.c:285-287). -/
def rws_socket_get_user_object (socket : Option Socket) : Option Nat :=
  match socket with
  | none => none
  | some s => s.user_object

/-- Embedding of `rws_socket_set_on_connected` (src/src/rws_socketpub.c:289-293);
the `Bool` records whether the stored callback pointer is non-null. -/
def rws_socket_set_on_connected (socket : Option Socket) (callback : Bool) :
    Option Socket :=
  match socket with
  | none => none
  | some s => some { s with on_connected := callback }

/-- Embedding of `rws_socket_set_on_disconnected` (src/src/rws_socketpub.c:295-299). -/
def rws_socket_set_on_disconnected (socket : Option Socket) (callback : Bool) :
    Option Socket :=
  match socket with
  | none => none
  | some s => some { s with on_disconnected := callback }

/-- Embedding of `rws_socket_set_on_received_text` (src/src/rws_socketpub.c:301-305). -/
def rws_socket_set_on_received_text (socket : Option Socket) (callback : Bool) :
    Option Socket :=
  match socket with
  | none => none
  | some s => some { s with on_recvd_text := callback }

/-- Embedding of `rws_socket_set_on_received_bin` (src/src/rws_socketpub.c:307-311). -/
def rws_socket_set_on_received_bin (socket : Option Socket) (callback : Bool) :
    Option Socket :=
  match socket with
  | none => none
  | some s => some { s with on_recvd_bin := callback }

/-- Embedding of `rws_socket_is_connected` (src/src/rws_socketpub.c:313-321):
under `send_mutex` the flag is read; a null handle yields false. -/
def rws_socket_is_connected (socket : Option Socket) : Bool :=
  match socket with
  | none => false
  | some s => s.is_connected

/-- Modelled from the spec: `rws_socket_send_text_priv` (outside src/)
validates the text, fragments it into frames and pushes them onto
`send_frames`, returning true; a null text fails.  Fragmentation below the
MTU is a single TEXT frame. -/
def rws_socket_send_text_priv (s : Socket) (text : Option String) :
    Bool × Socket :=
  match text with
  | none => (false, s)
  | some t =>
    let q := s.send_frames.getD [] ++ [⟨1, t.toList.map Char.toNat⟩]
    (true, { s with send_frames := some q })

/-- Embedding of `rws_socket_send_text` (src/src/rws_socketpub.c:89-97):
a null handle yields false; otherwise the private send runs under
`send_mutex`. -/
def rws_socket_send_text (socket : Option Socket) (text : Option String) :
    Bool × Option Socket :=
  match socket with
  | none => (false, none)
  | some s =>
    let r := rws_socket_send_text_priv s text
    (r.1, some r.2)

/-- Modelled from the spec: `rws_socket_send_bin_priv` (outside src/)
validates the data, fragments it into frames and pushes them onto
`send_frames`, returning true; a null data pointer fails. -/
def rws_socket_send_bin_priv (s : Socket) (data : Option (List Nat)) :
    Bool × Socket :=
  match data with
  | none => (false, s)
  | some d =>
    (true, { s with send_frames := some (s.send_frames.getD [] ++ [⟨2, d⟩]) })

/-- Embedding of `rws_socket_send_binary` (src/src/rws_socketpub.c:99-109):
a null handle yields false; otherwise the private send runs under
`send_mutex`. -/
def rws_socket_send_binary (socket : Option Socket) (data : Option (List Nat)) :
    Bool × Option Socket :=
  match socket with
  | none => (false, none)
  | some s =>
    let r := rws_socket_send_bin_priv s data
    (r.1, some r.2)

/-- Process-wide disposition of SIGPIPE: the OS default (terminates the
process), SIG_IGN, or the library's `rws_socket_handle_sigpipe` handler
(src/src/rws_socketpub.c:111-117), which prints and returns. -/
inductive SigDisposition where
  | osDefault
  | sigIgn
  | rwsHandler
  deriving Repr, DecidableEq

/-- Whether delivery of SIGPIPE terminates the process under a disposition:
only the OS default does; SIG_IGN and the returning `rws_socket_handle_sigpipe`
handler leave the process running. -/
def sigpipeTerminates : SigDisposition → Bool
  | SigDisposition.osDefault => true
  | SigDisposition.sigIgn => false
  | SigDisposition.rwsHandler => false

/-- Process state visible to `rws_socket_create`: the SIGPIPE disposition. -/
structure Process where
  sigpipe : SigDisposition
  deriving Repr, DecidableEq

/-- Handle produced by `rws_malloc_zero` in `rws_socket_create` before the
explicit field assignments: all fields zeroed (null / false / 0). -/
def zeroSocket : Socket :=
  { port := 0, scheme := none, host := none, path := none,
    sec_ws_accept := none, on_connected := false, on_disconnected := false,
    on_recvd_text := false, on_recvd_bin := false, user_object := none,
    error := none, received := none, received_size := 0, received_len := 0,
    is_connected := false, command := Command.NONE, work_thread := false,
    send_frames := none, recvd_frames := none }

/-- Embedding of `rws_socket_create` (src/src/rws_socketpub.c:127-148) on a
POSIX (non-Windows) build.  `allocOk` is the outcome of `rws_malloc_zero`:
on failure the function returns null at once — before the `signal` call —
leaving the process state untouched.  On success the SIGPIPE handler is
installed and the zeroed handle gets `port = -1` and `command = COMMAND_NONE`. -/
def rws_socket_create (p : Process) (allocOk : Bool) :
    Option Socket × Process :=
  if allocOk then
    (some { zeroSocket with port := -1, command := Command.NONE },
     { p with sigpipe := SigDisposition.rwsHandler })
  else
    (none, p)

/-- Concrete handle with every required connect parameter set except `path`. -/
def sockNoPath : Socket :=
  { zeroSocket with
      port := 80
      scheme := some "ws"
      host := some "example.org"
      on_disconnected := true }

/-- Concrete handle that is not connected, has no worker thread, and whose
`command` is already `END` — the state reaching the source's fall-through
path in `rws_socket_disconnect_and_release`. -/
def sockEndState : Socket :=
  { zeroSocket with command := Command.END }

/-- Concrete connected handle with two frames queued for sending. -/
def sockConnectedQueue : Socket :=
  { zeroSocket with
      is_connected := true
      send_frames := some [⟨1, [104, 105]⟩, ⟨2, [0, 255]⟩] }

/-- Concrete handle with both `port` and `scheme` missing (`port = 0`,
`scheme` null) and every later-checked parameter present. -/
def sockPortSchemeMissing : Socket :=
  { zeroSocket with
      host := some "example.org"
      path := some "/chat"
      on_disconnected := true }

/-- Concrete handle whose only missing connect parameter is the port. -/
def sockNoPort : Socket :=
  { zeroSocket with
      scheme := some "ws"
      host := some "example.org"
      path := some "/chat"
      on_disconnected := true }

/-- C6: every public operation is total on a null handle: `rws_socket_connect`,
`rws_socket_send_text`, `rws_socket_send_binary` and `rws_socket_is_connected`
return false; the getters for scheme, host, path, error and user object return
null; `rws_socket_get_port` returns -1; every setter and
`rws_socket_disconnect_and_release` leave everything unchanged and do nothing.
None of the embedded operations reads a field of the null handle: each
dispatches on the `none` case first, as the source checks the pointer. -/
theorem null_handle_total :
    (∀ threadOk, rws_socket_connect none threadOk = (false, none)) ∧
    (∀ text, rws_socket_send_text none text = (false, none)) ∧
    (∀ data, rws_socket_send_binary none data = (false, none)) ∧
    rws_socket_is_connected none = false ∧
    rws_socket_get_scheme none = none ∧
    rws_socket_get_host none = none ∧
    rws_socket_get_path none = none ∧
    rws_socket_get_error none = none ∧
    rws_socket_get_user_object none = none ∧
    rws_socket_get_port none = -1 ∧
    (∀ sc h p pt, rws_socket_set_url none sc h p pt = (none, [])) ∧
    (∀ v, rws_socket_set_scheme none v = none) ∧
    (∀ v, rws_socket_set_host none v = none) ∧
    (∀ v, rws_socket_set_path none v = none) ∧
    (∀ v, rws_socket_set_port none v = none) ∧
    (∀ v, rws_socket_set_user_object none v = none) ∧
    (∀ v, rws_socket_set_on_connected none v = none) ∧
    (∀ v, rws_socket_set_on_disconnected none v = none) ∧
    (∀ v, rws_socket_set_on_received_text none v = none) ∧
    (∀ v, rws_socket_set_on_received_bin none v = none) ∧
    rws_socket_disconnect_and_release none = ([], none) :=
  ⟨fun _ => rfl, fun _ => rfl, fun _ => rfl, rfl, rfl, rfl, rfl, rfl, rfl,
   rfl, fun _ _ _ _ => rfl, fun _ => rfl, fun _ => rfl, fun _ => rfl,
   fun _ => rfl, fun _ => rfl, fun _ => rfl, fun _ => rfl, fun _ => rfl,
   fun _ => rfl, rfl⟩

/-- C8: after `rws_socket_set_url` the four getters return exactly the values
passed (string values are held as independent copies, equal in value), and
the strings freed are exactly the previously stored scheme, host and path,
each deleted before its slot is overwritten. -/
theorem set_url_getters_roundtrip (s : Socket) (scheme host : Option String)
    (port : Int) (path : Option String) :
    rws_socket_get_scheme (rws_socket_set_url (some s) scheme host port path).1
        = scheme ∧
    rws_socket_get_host (rws_socket_set_url (some s) scheme host port path).1
        = host ∧
    rws_socket_get_port (rws_socket_set_url (some s) scheme host port path).1
        = port ∧
    rws_socket_get_path (rws_socket_set_url (some s) scheme host port path).1
        = path ∧
    (rws_socket_set_url (some s) scheme host port path).2 =
      rws_string_delete s.scheme ++ rws_string_delete s.host ++
        rws_string_delete s.path :=
  ⟨rfl, rfl, rfl, rfl, rfl⟩

/-- C10 counterexample: when `rws_malloc_zero` fails, `rws_socket_create`
returns null before reaching the `signal` call, so that call to
`rws_socket_create` installs nothing: the process disposition stays at the
OS default and SIGPIPE still terminates the process. -/
theorem create_alloc_failure_skips_sigpipe_install :
    (rws_socket_create ⟨SigDisposition.osDefault⟩ false).1 = none ∧
    (rws_socket_create ⟨SigDisposition.osDefault⟩ false).2.sigpipe
        = SigDisposition.osDefault ∧
    sigpipeTerminates
        (rws_socket_create ⟨SigDisposition.osDefault⟩ false).2.sigpipe
      = true := by
  decide

/-- C10 (amended): on POSIX, every call to `rws_socket_create` that returns a
non-null handle installs the process-wide SIGPIPE handler
`rws_socket_handle_sigpipe`, under which the process is not terminated by
SIGPIPE; the installation happens at each such handle creation (the call
that fails allocation returns null without installing). -/
theorem create_installs_sigpipe_handler (p : Process) (allocOk : Bool) :
    (rws_socket_create p allocOk).1 ≠ none →
      (rws_socket_create p allocOk).2.sigpipe = SigDisposition.rwsHandler ∧
      sigpipeTerminates (rws_socket_create p allocOk).2.sigpipe = false := by
  intro h
  cases allocOk with
  | false => exact absurd rfl h
  | true => exact ⟨rfl, rfl⟩

/-- Witness for C10's amended theorem at a concrete process and a successful
allocation. -/
theorem create_installs_sigpipe_handler_witness :
    (rws_socket_create ⟨SigDisposition.osDefault⟩ true).2.sigpipe
        = SigDisposition.rwsHandler ∧
    sigpipeTerminates
        (rws_socket_create ⟨SigDisposition.osDefault⟩ true).2.sigpipe
      = false :=
  create_installs_sigpipe_handler ⟨SigDisposition.osDefault⟩ true (by decide)

/-- Predicate of the five required-parameter checks of `rws_socket_connect`
(src/src/rws_socketpub.c:43-57): some required slot is unset. -/
def connect_params_missing (s : Socket) : Prop :=
  s.port ≤ 0 ∨ s.scheme = none ∨ s.host = none ∨ s.path = none ∨
    s.on_disconnected = false

instance (s : Socket) : Decidable (connect_params_missing s) := by
  unfold connect_params_missing
  infer_instance

/-- C1: `rws_socket_connect` on a non-null handle fails fast when a required
slot is unset: it returns false, stores an error whose code is
`missed_parameter`, and does not start a worker (the thread field is left as
it was); and it returns true only when the port is positive and scheme,
host, path and the `on_disconnected` callback are all set. -/
theorem connect_missing_parameter_fails_fast (s : Socket) (threadOk : Bool) :
    (connect_params_missing s →
      (rws_socket_connect (some s) threadOk).1 = false ∧
      ((rws_socket_get_error
          (rws_socket_connect (some s) threadOk).2).map RwsErr.code
        = some ErrorCode.missed_parameter) ∧
      ((rws_socket_connect (some s) threadOk).2.map Socket.work_thread
        = some s.work_thread)) ∧
    ((rws_socket_connect (some s) threadOk).1 = true →
      0 < s.port ∧ s.scheme ≠ none ∧ s.host ≠ none ∧ s.path ≠ none ∧
        s.on_disconnected = true) := by
  by_cases hp : s.port ≤ 0 <;>
    by_cases hs : s.scheme = none <;>
      by_cases hh : s.host = none <;>
        by_cases hpa : s.path = none <;>
          by_cases hd : s.on_disconnected = false <;>
            simp [rws_socket_connect, rws_socket_get_error,
              rws_socket_create_start_work_thread, rws_error_new_code_descr,
              connect_params_missing, hp, hs, hh, hpa, hd]
  omega

/-- Witness for C1 at a concrete handle missing only its path. -/
theorem connect_missing_parameter_fails_fast_witness :
    (rws_socket_connect (some sockNoPath) true).1 = false ∧
    ((rws_socket_get_error
        (rws_socket_connect (some sockNoPath) true).2).map RwsErr.code
      = some ErrorCode.missed_parameter) ∧
    ((rws_socket_connect (some sockNoPath) true).2.map Socket.work_thread
      = some sockNoPath.work_thread) :=
  (connect_missing_parameter_fails_fast sockNoPath true).1
    (Or.inr (Or.inr (Or.inr (Or.inl rfl))))

/-- C9: `rws_socket_connect` on a non-null handle always clears any previously
stored error — the resulting error slot is either empty or a fresh
`missed_parameter` error — and always resets `received_len` to 0; and on a
parameter failure the resulting handle differs from the input handle only in
the error slot and `received_len`. -/
theorem connect_clears_error_and_received_len (s : Socket) (threadOk : Bool) :
    (∀ s', (rws_socket_connect (some s) threadOk).2 = some s' →
      s'.received_len = 0 ∧
      (s'.error = none ∨ ∃ m, s'.error =
        some (rws_error_new_code_descr ErrorCode.missed_parameter m))) ∧
    (connect_params_missing s →
      ∃ m, (rws_socket_connect (some s) threadOk).2 =
        some { s with
          error := some (rws_error_new_code_descr ErrorCode.missed_parameter m)
          received_len := 0 }) := by
  cases threadOk <;>
    by_cases hp : s.port ≤ 0 <;>
      by_cases hs : s.scheme = none <;>
        by_cases hh : s.host = none <;>
          by_cases hpa : s.path = none <;>
            by_cases hd : s.on_disconnected = false <;>
              simp [rws_socket_connect, rws_socket_create_start_work_thread,
                connect_params_missing, hp, hs, hh, hpa, hd]

/-- Witness for C9 at a concrete handle whose only missing parameter is the
port. -/
theorem connect_clears_error_and_received_len_witness :
    ∃ m, (rws_socket_connect (some sockNoPort) true).2 =
      some { sockNoPort with
        error := some (rws_error_new_code_descr ErrorCode.missed_parameter m)
        received_len := 0 } :=
  (connect_clears_error_and_received_len sockNoPort true).2 (Or.inl (by decide))

/-- C3 (code bug): with both port and scheme missing, the stored error
description is the one for the scheme — the last missing field in the order
checked, because each check overwrites the single message pointer — not the
first (the port), as the claim requires. -/
theorem connect_reports_last_missing_field :
    ((rws_socket_get_error
        (rws_socket_connect (some sockPortSchemeMissing) true).2).map
          RwsErr.description
      = some "No URL scheme provided") ∧
    ((rws_socket_get_error
        (rws_socket_connect (some sockPortSchemeMissing) true).2).map
          RwsErr.description
      ≠ some "No URL port provided") := by
  refine ⟨rfl, ?_⟩
  decide

/-- C2 counterexample: at the concrete state that is not connected, has no
worker thread, and whose `command` is already `COMMAND_END`,
`rws_socket_disconnect_and_release` does not free the handle inline — no
free event occurs and the handle survives — refuting the claim that in every
no-worker state the handle is freed before returning. -/
theorem disconnect_no_inline_free_on_end_state :
    sockEndState.is_connected = false ∧
    sockEndState.work_thread = false ∧
    DiscEvent.freeSocket ∉
      (rws_socket_disconnect_and_release (some sockEndState)).1 ∧
    (rws_socket_disconnect_and_release (some sockEndState)).2 ≠ none := by
  decide

/-- C2 (amended): `rws_socket_disconnect_and_release` on a non-null handle is
non-blocking and dispatches on the state: if connected it sets `command` to
`COMMAND_DISCONNECT` and returns; else if a worker thread exists it sets
`command` to `COMMAND_END` and returns; else it frees the handle inline only
when `command` is not already `COMMAND_END` — in the no-worker state with
`command = COMMAND_END` it returns without freeing the handle. -/
theorem disconnect_and_release_dispatch (s : Socket) :
    (s.is_connected = true →
      (rws_socket_disconnect_and_release (some s)).2 =
        some { s with send_frames := none, command := Command.DISCONNECT } ∧
      DiscEvent.freeSocket ∉ (rws_socket_disconnect_and_release (some s)).1) ∧
    (s.is_connected = false → s.work_thread = true →
      (rws_socket_disconnect_and_release (some s)).2 =
        some { s with send_frames := none, command := Command.END } ∧
      DiscEvent.freeSocket ∉ (rws_socket_disconnect_and_release (some s)).1) ∧
    (s.is_connected = false → s.work_thread = false →
        s.command ≠ Command.END →
      (rws_socket_disconnect_and_release (some s)).2 = none ∧
      DiscEvent.freeSocket ∈ (rws_socket_disconnect_and_release (some s)).1) ∧
    (s.is_connected = false → s.work_thread = false →
        s.command = Command.END →
      (rws_socket_disconnect_and_release (some s)).2 =
        some { s with send_frames := none } ∧
      DiscEvent.freeSocket ∉ (rws_socket_disconnect_and_release (some s)).1) := by
  refine ⟨fun hc => ?_, fun hc hw => ?_, fun hc hw he => ?_, fun hc hw he => ?_⟩
  · simp [rws_socket_disconnect_and_release, hc]
  · simp [rws_socket_disconnect_and_release, hc, hw]
  · simp [rws_socket_disconnect_and_release, hc, hw, he]
  · simp [rws_socket_disconnect_and_release, hc, hw, he]

/-- Witness for C2's amended theorem at a concrete connected handle with a
non-empty send queue. -/
theorem disconnect_and_release_dispatch_witness :
    (rws_socket_disconnect_and_release (some sockConnectedQueue)).2 =
      some { sockConnectedQueue with
        send_frames := none
        command := Command.DISCONNECT } ∧
    DiscEvent.freeSocket ∉
      (rws_socket_disconnect_and_release (some sockConnectedQueue)).1 :=
  (disconnect_and_release_dispatch sockConnectedQueue).1 rfl

/-- C5 (code bug): on the path where the handle is not connected, has no
worker thread, and `command` is already `COMMAND_END`,
`rws_socket_disconnect_and_release` returns having locked `work_mutex` once
and unlocked it zero times — the source's if/else-if chain falls through
without an unlock, leaking the lock. -/
theorem disconnect_leaks_work_mutex_on_end_path :
    ((rws_socket_disconnect_and_release (some sockEndState)).1.count
        DiscEvent.lockWork = 1) ∧
    ((rws_socket_disconnect_and_release (some sockEndState)).1.count
        DiscEvent.unlockWork = 0) := by
  decide

/-- C7: `rws_socket_disconnect_and_release` on a non-null handle first (after
taking `work_mutex`, with no intervening unlock, signalling or free) deletes
every queued send frame and clears the `send_frames` field, and only then —
in `rest` — signals the worker or frees the handle; whenever the handle
survives, its send queue is null. -/
theorem disconnect_discards_queued_frames (s : Socket) :
    (∃ rest, (rws_socket_disconnect_and_release (some s)).1 =
      DiscEvent.lockWork ::
        ((s.send_frames.getD []).map DiscEvent.deleteFrame ++
          (DiscEvent.clearSendList :: rest))) ∧
    (∀ s', (rws_socket_disconnect_and_release (some s)).2 = some s' →
      s'.send_frames = none) := by
  unfold rws_socket_disconnect_and_release
  by_cases hc : s.is_connected <;>
    by_cases hw : s.work_thread <;>
      by_cases he : s.command = Command.END <;>
        simp [hc, hw, he]

/-- Witness for C7 at a concrete connected handle with two queued frames. -/
theorem disconnect_discards_queued_frames_witness :
    ({ sockConnectedQueue with
        send_frames := none
        command := Command.DISCONNECT } : Socket).send_frames = none :=
  (disconnect_discards_queued_frames sockConnectedQueue).2
    { sockConnectedQueue with
        send_frames := none
        command := Command.DISCONNECT } (by decide)

/-- Frame-free events never count as field-free events. -/
lemma count_freeField_in_frame_map (fld f : OwnedField) (l : List Frame) :
    (l.map (DelEvent.freeFrame fld)).count (DelEvent.freeField f) = 0 := by
  simp [List.count_eq_zero]

/-- Counting a frame-free event in the frame-free events of the same field
counts the frame in the list. -/
lemma count_freeFrame_in_same_map (fld : OwnedField) (l : List Frame)
    (x : Frame) :
    (l.map (DelEvent.freeFrame fld)).count (DelEvent.freeFrame fld x) =
      l.count x :=
  List.count_map_of_injective l _
    (fun a b h => by injection h) x

/-- Frame-free events of the receive queue never count as frame-free events
of the send queue. -/
lemma count_freeFrame_send_in_recvd_map (l : List Frame) (x : Frame) :
    (l.map (DelEvent.freeFrame OwnedField.recvdFrames)).count
      (DelEvent.freeFrame OwnedField.sendFrames x) = 0 := by
  simp [List.count_eq_zero]

/-- Frame-free events of the send queue never count as frame-free events of
the receive queue. -/
lemma count_freeFrame_recvd_in_send_map (l : List Frame) (x : Frame) :
    (l.map (DelEvent.freeFrame OwnedField.sendFrames)).count
      (DelEvent.freeFrame OwnedField.recvdFrames x) = 0 := by
  simp [List.count_eq_zero]

/-- Count of an event in a conditional one-event segment. -/
lemma count_if_singleton (c : Prop) [Decidable c] (a b : DelEvent) :
    ((if c then [a] else []) : List DelEvent).count b =
      if c ∧ a = b then 1 else 0 := by
  by_cases hc : c <;> simp [hc, List.count_singleton']

/-- C4: `rws_socket_delete` releases each owned field at most once — exactly
once when the field was set, never when it was already null — and frees each
queued frame of the send and receive queues exactly as often as it occurs in
the queue, never twice: the clean-delete helpers null each field as they
free it, so the second round of releases later in the function is a no-op. -/
theorem socket_delete_single_release (s : Socket) :
    ((rws_socket_delete s).count (DelEvent.freeField OwnedField.secWsAccept) =
      if s.sec_ws_accept.isSome then 1 else 0) ∧
    ((rws_socket_delete s).count (DelEvent.freeField OwnedField.received) =
      if s.received.isSome then 1 else 0) ∧
    ((rws_socket_delete s).count (DelEvent.freeField OwnedField.sendFrames) =
      if s.send_frames.isSome then 1 else 0) ∧
    ((rws_socket_delete s).count (DelEvent.freeField OwnedField.recvdFrames) =
      if s.recvd_frames.isSome then 1 else 0) ∧
    ((rws_socket_delete s).count (DelEvent.freeField OwnedField.scheme) =
      if s.scheme.isSome then 1 else 0) ∧
    ((rws_socket_delete s).count (DelEvent.freeField OwnedField.host) =
      if s.host.isSome then 1 else 0) ∧
    ((rws_socket_delete s).count (DelEvent.freeField OwnedField.path) =
      if s.path.isSome then 1 else 0) ∧
    ((rws_socket_delete s).count (DelEvent.freeField OwnedField.errorField) =
      if s.error.isSome then 1 else 0) ∧
    (∀ x : Frame,
      (rws_socket_delete s).count (DelEvent.freeFrame OwnedField.sendFrames x)
        = (s.send_frames.getD []).count x) ∧
    (∀ x : Frame,
      (rws_socket_delete s).count (DelEvent.freeFrame OwnedField.recvdFrames x)
        = (s.recvd_frames.getD []).count x) := by
  refine ⟨?_, ?_, ?_, ?_, ?_, ?_, ?_, ?_, fun x => ?_, fun x => ?_⟩ <;>
    simp [rws_socket_delete, cleanField, delete_all_frames_in_list,
      List.count_append, List.count_cons, count_if_singleton,
      count_freeField_in_frame_map, count_freeFrame_in_same_map,
      count_freeFrame_send_in_recvd_map, count_freeFrame_recvd_in_send_map]

end Librws
